import Mathlib

/-!
Verification of the `hello_triangle` D3D12 sample (Rust) against its
natural-language specification.  The relevant parts of the source are
shallowly embedded below: pure computations become Lean functions, the
per-frame mutation of the sample's `Resources` struct becomes explicit
state passing, GPU/OS calls become events in a recorded trace, and the
opaque COM handles become `Nat` identifiers.  Machine integers (`u32`,
`u64`, `usize`) are modelled as `Nat`; none of the arithmetic proved
about here can overflow their ranges.  `f32` scalars are modelled as
rationals: every literal involved (`0.25`, `0.0`, `1.0`, …) is exact in
`f32` and the claims checked only concern which symbolic products the
code forms, not rounding.
-/

/-- `const FRAME_COUNT: u32 = 2;` (hello_triangle.rs line 9). -/
def FRAME_COUNT : Nat := 2

/-- `std::mem::size_of::<Vertex>()`: `#[repr(C)] struct Vertex { position: [f32; 3], color: [f32; 4] }`
has seven 4-byte `f32` fields, 4-byte aligned, no padding, so 28 bytes. -/
def vertexSizeBytes : Nat := 3 * 4 + 4 * 4

/-- `std::mem::size_of_val(&vertices)` where `vertices : [Vertex; 3]`: 3 × 28 = 84 bytes. -/
def verticesSizeBytes : Nat := 3 * vertexSizeBytes

/-- The `Vertex` struct of hello_triangle.rs (lines 358-362), with `f32`
modelled as `ℚ`. -/
structure Vertex where
  position : ℚ × ℚ × ℚ
  color : ℚ × ℚ × ℚ × ℚ
deriving DecidableEq, Repr

/-- The `vertices` array built by `create_vertex_buffer` (lines 368-381). -/
def triangleVertices (aspect_ratio : ℚ) : List Vertex :=
  [ { position := (0.0, 0.25 * aspect_ratio, 0.0), color := (1.0, 0.0, 0.0, 1.0) },
    { position := (0.25, -0.25 * aspect_ratio, 0.0), color := (0.0, 1.0, 0.0, 1.0) },
    { position := (-0.25, -0.25 * aspect_ratio, 0.0), color := (0.0, 0.0, 1.0, 1.0) } ]

/-- `D3D12_VERTEX_BUFFER_VIEW` (fields used by the sample). -/
structure VertexBufferView where
  bufferLocation : Nat
  strideInBytes : Nat
  sizeInBytes : Nat
deriving DecidableEq, Repr

/-- The vertex-buffer view recorded by `create_vertex_buffer` (lines 430-434):
`BufferLocation = GetGPUVirtualAddress()`, `StrideInBytes = size_of::<Vertex>()`,
`SizeInBytes = size_of_val(&vertices)`. -/
def create_vertex_buffer_vbv (gpuVirtualAddress : Nat) : VertexBufferView :=
  { bufferLocation := gpuVirtualAddress
    strideInBytes := vertexSizeBytes
    sizeInBytes := verticesSizeBytes }

/-- `Width` of the committed buffer resource created by `create_vertex_buffer`
(line 400): `std::mem::size_of_val(&vertices) as u64` = 84. -/
def vertexBufferWidth : Nat := verticesSizeBytes

/-- The `count` argument the source passes to
`std::ptr::copy_nonoverlapping(vertices.as_ptr(), data as *mut Vertex, count)`
(line 425): `std::mem::size_of_val(&vertices)` = 84. -/
def mapCopyElementCount : Nat := verticesSizeBytes

/-- The number of BYTES `copy_nonoverlapping::<Vertex>` actually writes:
its `count` argument is in units of `Vertex` elements (both pointers have
type `*const/mut Vertex`), so it copies `count * size_of::<Vertex>()` bytes. -/
def mapCopyByteCount : Nat := mapCopyElementCount * vertexSizeBytes

example : mapCopyByteCount = 2352 := by decide
example : vertexBufferWidth = 84 := by decide
example : triangleVertices (4/3) = [
  ⟨(0, 1/3, 0), (1,0,0,1)⟩, ⟨(1/4, -(1/3), 0), (0,1,0,1)⟩, ⟨(-(1/4), -(1/3), 0), (0,0,1,1)⟩] := by
  norm_num [triangleVertices]

/-! ## Adapter selection (`bindings/adapter.rs`, `get_hardware_adapter`) -/

/-- Error values observable from `get_hardware_adapter`.  The function
itself constructs no error: every error it returns is propagated by `?`
from a factory/adapter call.  `enumAdaptersNotFound` is the
`DXGI_ERROR_NOT_FOUND` failure `EnumAdapters1(i)` returns once `i` is
past the last adapter — the failure the spec's error taxonomy names
`NoCompatibleAdapter`.  `getDescFailed` stands for a failing
`adapter.GetDesc1()` call. -/
inductive DxError
  | enumAdaptersNotFound
  | getDescFailed
deriving DecidableEq, Repr

/-- What the sample observes about one enumerated adapter:
whether `GetDesc1` succeeds, whether the descriptor's flags contain
`DXGI_ADAPTER_FLAG_SOFTWARE`, and whether the
`D3D12CreateDevice(adapter, D3D_FEATURE_LEVEL_11_0, null)` dry run
succeeds. -/
structure AdapterInfo where
  getDesc1Ok : Bool
  isSoftware : Bool
  supportsFeatureLevel11 : Bool
deriving DecidableEq, Repr

/-- Outcome of running `get_hardware_adapter`: a returned adapter, a
propagated error, or a panic (`unreachable!()`). -/
inductive Outcome (α : Type)
  | ok (a : α)
  | error (e : DxError)
  | panicked
deriving DecidableEq, Repr

/-- The `for i in 0..` loop of `get_hardware_adapter` (adapter.rs lines
81-105), recursing over the adapters the factory enumerates in index
order.  When the list is exhausted, `factory.EnumAdapters1(i)?` fails
with `DXGI_ERROR_NOT_FOUND` and `?` propagates it; a failing
`GetDesc1()?` likewise propagates; a software adapter is skipped; a
non-software adapter passing the feature-level-11.0 dry run is
returned. -/
def getHardwareAdapterLoop : List AdapterInfo → Outcome AdapterInfo
  | [] => .error .enumAdaptersNotFound
  | a :: rest =>
    if !a.getDesc1Ok then .error .getDescFailed
    else if a.isSoftware then getHardwareAdapterLoop rest
    else if a.supportsFeatureLevel11 then .ok a
    else getHardwareAdapterLoop rest

/-- `get_hardware_adapter`, as a function of the factory's adapter list.
The `unreachable!()` after the loop would be `Outcome.panicked`, but the
infinite range `0..` means control can never fall out of the loop. -/
def get_hardware_adapter (adapters : List AdapterInfo) : Outcome AdapterInfo :=
  getHardwareAdapterLoop adapters

example : get_hardware_adapter [] = .error .enumAdaptersNotFound := by decide
example : get_hardware_adapter [⟨true, true, true⟩, ⟨true, false, false⟩]
    = .error .enumAdaptersNotFound := by decide
example : get_hardware_adapter [⟨true, false, true⟩] = .ok ⟨true, false, true⟩ := by decide

/-! ## Command line (`command_line.rs`) and its effects -/

/-- `u8::to_ascii_lowercase` lifted to `Char` (the strings compared are
ASCII, where byte-wise and char-wise comparison agree): bytes `b'A'..=b'Z'`
get 32 added, everything else is unchanged. -/
def toAsciiLowercase (c : Char) : Char :=
  if 'A' ≤ c ∧ c ≤ 'Z' then Char.ofNat (c.toNat + 32) else c

/-- `str::eq_ignore_ascii_case`: equal length and pairwise equality after
ASCII lowercasing. -/
def eqIgnoreAsciiCaseList : List Char → List Char → Bool
  | [], [] => true
  | c :: cs, d :: ds => toAsciiLowercase c == toAsciiLowercase d && eqIgnoreAsciiCaseList cs ds
  | _, _ => false

/-- `arg.eq_ignore_ascii_case(other)` on strings. -/
def eq_ignore_ascii_case (a b : String) : Bool :=
  eqIgnoreAsciiCaseList a.toList b.toList

/-- `SampleCommandLine::default()` (command_line.rs lines 7-19): scan
`std::env::args()`; the flag is set when some argument matches `-warp`
or `/warp` case-insensitively (set-once, never cleared, hence `any`). -/
def use_warp_device (args : List String) : Bool :=
  args.any fun arg =>
    eq_ignore_ascii_case arg "-warp" || eq_ignore_ascii_case arg "/warp"

/-- Which adapter-producing call `create_device` makes (devices.rs lines
23-28): `dxgi_factory.EnumWarpAdapter()` when the flag is set, else
`adapter::get_hardware_adapter(&dxgi_factory)`. -/
inductive AdapterChoice
  | warpAdapter
  | hardwareAdapter
deriving DecidableEq, Repr

/-- The adapter selection performed by `create_device`. -/
def create_device_adapter (useWarpDevice : Bool) : AdapterChoice :=
  if useWarpDevice then .warpAdapter else .hardwareAdapter

/-- The window title computed by `init_sample` (dx_sample.rs lines 57-61):
`title.push_str(" (WARP)")` exactly when the flag is set. -/
def window_title (baseTitle : String) (useWarpDevice : Bool) : String :=
  if useWarpDevice then baseTitle ++ " (WARP)" else baseTitle

/-- Modelled from the spec: "one flag recognized case-insensitively in
either `-warp` or `/warp` form" — some argument equals `"-warp"` or
`"/warp"` after ASCII lowercasing. -/
def specWarpFlagRecognized (args : List String) : Bool :=
  args.any fun arg =>
    decide (arg.toList.map toAsciiLowercase = "-warp".toList)
    || decide (arg.toList.map toAsciiLowercase = "/warp".toList)

example : use_warp_device ["app.exe", "/WARP"] = true := by decide
example : use_warp_device ["app.exe", "-Warp", "x"] = true := by decide
example : use_warp_device ["app.exe", "warp"] = false := by decide
example : specWarpFlagRecognized ["app.exe", "/WaRp"] = true := by decide

/-! ## The sample's per-window state (`struct Resources`, hello_triangle.rs lines 17-40)

Opaque COM handles (`ID3D12CommandQueue`, `IDXGISwapChain3`, …) are
modelled as `Nat` identifiers; what matters to the claims is only their
identity across frames. -/

/-- `D3D12_VIEWPORT` with `f32` fields as `ℚ`. -/
structure Viewport where
  topLeftX : ℚ
  topLeftY : ℚ
  width : ℚ
  height : ℚ
  minDepth : ℚ
  maxDepth : ℚ
deriving DecidableEq, Repr

/-- `RECT` with `i32` fields as `Int`. -/
structure Rect where
  left : Int
  top : Int
  right : Int
  bottom : Int
deriving DecidableEq, Repr

/-- The `Resources` struct stored inside the sample after
`bind_to_window`.  `render_targets` is the two-element array of
back-buffer handles; `frame_index : u32` and `fence_value : u64` are the
two mutable counters. -/
structure Resources where
  command_queue : Nat
  swap_chain : Nat
  frame_index : Nat
  render_targets : List Nat
  rtv_heap : Nat
  rtv_descriptor_size : Nat
  viewport : Viewport
  scissor_rect : Rect
  command_allocator : Nat
  root_signature : Nat
  pso : Nat
  command_list : Nat
  vertex_buffer : Nat
  vbv : VertexBufferView
  fence : Nat
  fence_value : Nat
  fence_event : Nat
deriving DecidableEq, Repr

/-- The environment `bind_to_window` draws on: the window's client size,
and the values/handles returned by the device, factory and swap-chain
calls it makes. -/
structure BindEnv where
  width : Int
  height : Int
  queueHandle : Nat
  swapChainHandle : Nat
  swapChainIndex : Nat
  backBuffer0 : Nat
  backBuffer1 : Nat
  rtvHeapHandle : Nat
  rtvHeapBase : Nat
  rtvDescriptorSize : Nat
  allocatorHandle : Nat
  rootSignatureHandle : Nat
  psoHandle : Nat
  commandListHandle : Nat
  vertexBufferHandle : Nat
  vbGpuAddress : Nat
  fenceHandle : Nat
  fenceEventHandle : Nat
deriving DecidableEq, Repr

/-- `CreateFence(0, D3D12_FENCE_FLAG_NONE)` (line 195): the fence's
initial completed value. -/
def createFenceInitialValue : Nat := 0

/-- The RTV CPU handles at which `bind_to_window` creates the two
render-target views (lines 132-153): for each `i ∈ [0, FRAME_COUNT)`,
`rtv_handle.ptr + i * rtv_descriptor_size`, with
`rtv_descriptor_size = GetDescriptorHandleIncrementSize(RTV)`. -/
def bindRtvHandles (env : BindEnv) : List Nat :=
  (List.range FRAME_COUNT).map fun i => env.rtvHeapBase + i * env.rtvDescriptorSize

/-- The `Resources` value `bind_to_window` stores (lines 64-222):
`frame_index` from `GetCurrentBackBufferIndex()`, the queried descriptor
stride, a full-window viewport (`MinDepth = 0.0`, `MaxDepth = 1.0`) and
scissor rect, the vertex-buffer view from `create_vertex_buffer`, and
`fence_value = 1` (line 197). -/
def bind_to_window (env : BindEnv) : Resources :=
  { command_queue := env.queueHandle
    swap_chain := env.swapChainHandle
    frame_index := env.swapChainIndex
    render_targets := [env.backBuffer0, env.backBuffer1]
    rtv_heap := env.rtvHeapHandle
    rtv_descriptor_size := env.rtvDescriptorSize
    viewport := { topLeftX := 0, topLeftY := 0, width := env.width, height := env.height,
                  minDepth := 0, maxDepth := 1 }
    scissor_rect := { left := 0, top := 0, right := env.width, bottom := env.height }
    command_allocator := env.allocatorHandle
    root_signature := env.rootSignatureHandle
    pso := env.psoHandle
    command_list := env.commandListHandle
    vertex_buffer := env.vertexBufferHandle
    vbv := create_vertex_buffer_vbv env.vbGpuAddress
    fence := env.fenceHandle
    fence_value := 1
    fence_event := env.fenceEventHandle }

/-! ## Frame recording (`populate_command_list`, lines 246-334) -/

/-- The two resource states the sample transitions between. -/
inductive ResState
  | present
  | renderTarget
deriving DecidableEq, Repr

/-- Commands recorded into the command list by `populate_command_list`,
in source order.  (`allocator.Reset()` and `list.Reset(allocator, pso)`
precede recording and put the list in the OPEN state; `close` marks the
final `command_list.Close()`.) -/
inductive Cmd
  | setGraphicsRootSignature (rootSignature : Nat)
  | rsSetViewports (count : Nat) (vp : Viewport)
  | rsSetScissorRects (count : Nat) (rect : Rect)
  | resourceBarrier (resource : Nat) (stateBefore stateAfter : ResState)
  | omSetRenderTargets (count : Nat) (rtvHandle : Nat)
  | clearRenderTargetView (rtvHandle : Nat)
  | iaSetPrimitiveTopology
  | iaSetVertexBuffers (slot : Nat) (count : Nat) (vbv : VertexBufferView)
  | drawInstanced (vertexCount instanceCount startVertex startInstance : Nat)
  | close
deriving DecidableEq, Repr

/-- `resources.render_targets[resources.frame_index as usize]`
(lines 284, 326): the back buffer both barriers name. -/
def backBuffer (r : Resources) : Nat :=
  r.render_targets.getD r.frame_index 0

/-- The RTV CPU handle computed inside `populate_command_list`
(lines 291-296): `GetCPUDescriptorHandleForHeapStart().ptr +
frame_index * rtv_descriptor_size`.  `heapBase` is the heap-start
pointer the call returns. -/
def populateRtvHandle (heapBase : Nat) (r : Resources) : Nat :=
  heapBase + r.frame_index * r.rtv_descriptor_size

/-- The command sequence `populate_command_list` records (lines 246-334),
in source order. -/
def populate_command_list (heapBase : Nat) (r : Resources) : List Cmd :=
  [ .setGraphicsRootSignature r.root_signature,
    .rsSetViewports 1 r.viewport,
    .rsSetScissorRects 1 r.scissor_rect,
    .resourceBarrier (backBuffer r) .present .renderTarget,
    .omSetRenderTargets 1 (populateRtvHandle heapBase r),
    .clearRenderTargetView (populateRtvHandle heapBase r),
    .iaSetPrimitiveTopology,
    .iaSetVertexBuffers 0 1 r.vbv,
    .drawInstanced 3 1 0 0,
    .resourceBarrier (backBuffer r) .renderTarget .present,
    .close ]

/-- Whether a recorded command is a resource barrier. -/
def isBarrierCmd : Cmd → Bool
  | .resourceBarrier _ _ _ => true
  | _ => false

/-! ## Frame submission and fence synchronisation
(`render` lines 226-243, `wait_for_previous_frame` lines 439-472) -/

/-- `INFINITE` (`u32::MAX`), the timeout passed to
`WaitForSingleObject`. -/
def INFINITE : Nat := 4294967295

/-- Queue/OS calls a frame makes after recording, in order. -/
inductive Ev
  | executeCommandLists (count : Nat) (list : Nat)
  | present (syncInterval flags : Nat)
  | signal (fence v : Nat)
  | setEventOnCompletion (v event : Nat)
  | waitForSingleObject (event timeout : Nat)
deriving DecidableEq, Repr

/-- Per-frame values read from the environment: what
`fence.GetCompletedValue()` returns at the check in
`wait_for_previous_frame`, and what
`swap_chain.GetCurrentBackBufferIndex()` returns at the end. -/
structure FrameEnv where
  completedBefore : Nat
  swapChainIndex : Nat
deriving DecidableEq, Repr

/-- `wait_for_previous_frame` (lines 439-472): capture
`fence = fence_value`; `queue.Signal(fence_obj, fence)`; increment
`fence_value`; if `GetCompletedValue() < fence`, register the event for
`fence` and block on it with `INFINITE` timeout; finally refresh
`frame_index` from the swap chain. -/
def wait_for_previous_frame (env : FrameEnv) (r : Resources) : List Ev × Resources :=
  let fence := r.fence_value
  let evs :=
    [Ev.signal r.fence fence]
      ++ (if env.completedBefore < fence then
            [Ev.setEventOnCompletion fence r.fence_event,
             Ev.waitForSingleObject r.fence_event INFINITE]
          else [])
  (evs, { r with fence_value := r.fence_value + 1, frame_index := env.swapChainIndex })

/-- The fence's completed value once `wait_for_previous_frame` has
returned.  Modelled from the spec's fence contract (the GPU side is not
in the repository): if the completed value observed was below the
awaited value, `WaitForSingleObject(event, INFINITE)` returns only once
the queue's signal has raised it to that value; otherwise it is
untouched. -/
def completedAfterWait (completedBefore v : Nat) : Nat :=
  if completedBefore < v then v else completedBefore

/-- `Sample::render` (lines 226-243) as a function of the bound state:
on `None` resources it does nothing; otherwise it records the command
list via `populate_command_list`, executes it (one list), presents with
`Present(1, 0)`, and runs `wait_for_previous_frame`.  Returns the
recorded commands, the submission/sync events, and the new state. -/
def render (heapBase : Nat) (env : FrameEnv) :
    Option Resources → List Cmd × List Ev × Option Resources
  | none => ([], [], none)
  | some r =>
    let cmds := populate_command_list heapBase r
    let (waitEvs, r2) := wait_for_previous_frame env r
    (cmds,
     [Ev.executeCommandLists 1 r.command_list, Ev.present 1 0] ++ waitEvs,
     some r2)

/-- A sequence of `render()` calls, each with its own per-frame
environment reads, concatenating the submission/sync events. -/
def renderN (heapBase : Nat) : List FrameEnv → Option Resources → List Ev × Option Resources
  | [], s => ([], s)
  | env :: rest, s =>
    let (_, evs, s2) := render heapBase env s
    let (evs2, s3) := renderN heapBase rest s2
    (evs ++ evs2, s3)

/-- The values passed to `queue.Signal`, in order of occurrence. -/
def signalValues (evs : List Ev) : List Nat :=
  evs.filterMap fun e =>
    match e with
    | .signal _ v => some v
    | _ => none

example :
    signalValues (renderN 0 [⟨0, 1⟩, ⟨1, 0⟩, ⟨2, 1⟩]
      (some (bind_to_window ⟨1024, 768, 1, 2, 0, 3, 4, 5, 100, 32, 6, 7, 8, 9, 10, 11, 12, 13⟩))).1
      = [1, 2, 3] := by decide

example :
    Option.map Resources.fence_value
      (renderN 0 [⟨0, 1⟩, ⟨1, 0⟩]
        (some (bind_to_window ⟨1024, 768, 1, 2, 0, 3, 4, 5, 100, 32, 6, 7, 8, 9, 10, 11, 12, 13⟩))).2
      = some 3 := by decide

/-- A concrete environment for `bind_to_window`, used to instantiate the
quantified theorems: a 1024×768 window, descriptor stride 32, heap base
100, distinct handle identifiers. -/
def sampleBindEnv : BindEnv := ⟨1024, 768, 1, 2, 0, 3, 4, 5, 100, 32, 6, 7, 8, 9, 10, 11, 12, 13⟩

/-- The `Resources` value `bind_to_window` produces on `sampleBindEnv`. -/
def sampleResources : Resources := bind_to_window sampleBindEnv

/-- `sampleResources` after the swap chain has rotated to back buffer 1. -/
def sampleResources1 : Resources := { sampleResources with frame_index := 1 }

/-! ## Helper lemmas -/

/-- If every enumerated adapter is software-flagged or fails the
feature-level-11.0 dry run (and its `GetDesc1` succeeds), the loop of
`get_hardware_adapter` runs off the end of the adapter list and returns
the propagated `EnumAdapters1` failure. -/
theorem getHardwareAdapterLoop_exhausted (adapters : List AdapterInfo)
    (h : ∀ a ∈ adapters,
      a.getDesc1Ok = true ∧ (a.isSoftware = true ∨ a.supportsFeatureLevel11 = false)) :
    getHardwareAdapterLoop adapters = .error .enumAdaptersNotFound := by
  induction adapters with
  | nil => rfl
  | cons a rest ih =>
    obtain ⟨hd, hsw⟩ := h a (by simp)
    have ih2 := ih fun x hx => h x (by simp [hx])
    rcases hsw with hs | hf
    · simp [getHardwareAdapterLoop, hd, hs, ih2]
    · by_cases hsoft : a.isSoftware = true <;>
        simp [getHardwareAdapterLoop, hd, hsoft, hf, ih2]

/-- `eq_ignore_ascii_case` at the list level decides equality of the
ASCII-lowercased strings. -/
theorem eqIgnoreAsciiCaseList_iff (xs ys : List Char) :
    eqIgnoreAsciiCaseList xs ys = true ↔
      xs.map toAsciiLowercase = ys.map toAsciiLowercase := by
  induction xs generalizing ys with
  | nil => cases ys <;> simp [eqIgnoreAsciiCaseList]
  | cons c cs ih =>
    cases ys with
    | nil => simp [eqIgnoreAsciiCaseList]
    | cons d ds => simp [eqIgnoreAsciiCaseList, ih]

/-- Against a literal that is already lowercase, `eq_ignore_ascii_case`
is exactly "lowercase the argument, then compare". -/
theorem eqIgnoreAsciiCaseList_literal (xs ys : List Char)
    (h : ys.map toAsciiLowercase = ys) :
    eqIgnoreAsciiCaseList xs ys = decide (xs.map toAsciiLowercase = ys) := by
  rw [Bool.eq_iff_iff]
  simp [eqIgnoreAsciiCaseList_iff, h]

/-- The flag computed by `SampleCommandLine::default()` coincides with
the spec's formulation of warp-flag recognition. -/
theorem use_warp_device_eq_spec (args : List String) :
    use_warp_device args = specWarpFlagRecognized args := by
  induction args with
  | nil => rfl
  | cons a rest ih =>
    unfold use_warp_device specWarpFlagRecognized at ih ⊢
    simp only [List.any_cons, ih, eq_ignore_ascii_case,
      eqIgnoreAsciiCaseList_literal _ _ (by decide : ("-warp".toList).map toAsciiLowercase = "-warp".toList),
      eqIgnoreAsciiCaseList_literal _ _ (by decide : ("/warp".toList).map toAsciiLowercase = "/warp".toList)]

/-- `signalValues` distributes over trace concatenation. -/
theorem signalValues_append (a b : List Ev) :
    signalValues (a ++ b) = signalValues a ++ signalValues b :=
  List.filterMap_append a b _

/-- One bound `render()` call passes exactly the captured `fence_value`
to `queue.Signal`, whatever the wait branch does. -/
theorem render_signalValues (heapBase : Nat) (env : FrameEnv) (r : Resources) :
    signalValues (render heapBase env (some r)).2.1 = [r.fence_value] := by
  by_cases h : env.completedBefore < r.fence_value <;>
    simp [render, wait_for_previous_frame, signalValues, h]

/-- One bound `render()` call increments `fence_value` and refreshes
`frame_index`, leaving every other field of `Resources` unchanged. -/
theorem render_state (heapBase : Nat) (env : FrameEnv) (r : Resources) :
    (render heapBase env (some r)).2.2
      = some { r with fence_value := r.fence_value + 1, frame_index := env.swapChainIndex } :=
  rfl

/-- Across a run of `render()` calls from a bound state, the `Signal`
values count up from the initial `fence_value` and the final
`fence_value` exceeds it by the number of frames. -/
theorem renderN_signals (heapBase : Nat) (envs : List FrameEnv) (r : Resources) :
    signalValues (renderN heapBase envs (some r)).1
        = List.range' r.fence_value envs.length
    ∧ ∃ r2 : Resources, (renderN heapBase envs (some r)).2 = some r2
        ∧ r2.fence_value = r.fence_value + envs.length := by
  induction envs generalizing r with
  | nil => exact ⟨rfl, r, rfl, rfl⟩
  | cons env rest ih =>
    obtain ⟨h1, r2, h2, h3⟩ :=
      ih { r with fence_value := r.fence_value + 1, frame_index := env.swapChainIndex }
    refine ⟨?_, r2, ?_, ?_⟩
    · show signalValues ((render heapBase env (some r)).2.1
          ++ (renderN heapBase rest (render heapBase env (some r)).2.2).1) = _
      rw [signalValues_append, render_signalValues, render_state, h1,
        List.length_cons, List.range'_succ]
      rfl
    · show (renderN heapBase rest (render heapBase env (some r)).2.2).2 = some r2
      rw [render_state, h2]
    · rw [h3]; simp; omega

/-! ## The claims -/

/-- C1 (code bug): `create_vertex_buffer` maps the 84-byte upload buffer
and calls `std::ptr::copy_nonoverlapping` on `*const Vertex` / `*mut
Vertex` pointers with `count = std::mem::size_of_val(&vertices)` = 84.
`copy_nonoverlapping`'s count is in ELEMENTS, so 84 × 28 = 2352 bytes
are copied — 2268 bytes past the end of the 84-byte buffer (and past the
end of the 3-element source array), contradicting the claim that the
copy writes no bytes past offset 84. -/
theorem claim_C1_vertex_copy_overruns_buffer :
    mapCopyElementCount = 84
    ∧ mapCopyByteCount = 2352
    ∧ vertexBufferWidth = 84
    ∧ vertexBufferWidth < mapCopyByteCount := by
  decide

/-- C2: when every adapter the factory enumerates is either
software-flagged or fails the feature-level-11.0 device dry run,
`get_hardware_adapter` returns the propagated enumeration-exhausted
error — the failure the spec's taxonomy names `NoCompatibleAdapter` —
to its caller; it does not reach the `unreachable!()` panic and no other
error kind occurs in such a run. -/
theorem claim_C2_exhaustion_returns_no_compatible_adapter (adapters : List AdapterInfo)
    (h : ∀ a ∈ adapters,
      a.getDesc1Ok = true ∧ (a.isSoftware = true ∨ a.supportsFeatureLevel11 = false)) :
    get_hardware_adapter adapters = .error .enumAdaptersNotFound
    ∧ get_hardware_adapter adapters ≠ .panicked := by
  have hmain : get_hardware_adapter adapters = .error .enumAdaptersNotFound :=
    getHardwareAdapterLoop_exhausted adapters h
  exact ⟨hmain, by rw [hmain]; intro hc; cases hc⟩

/-- Witness for C2: a software adapter followed by a hardware adapter
that fails the dry run exhausts enumeration. -/
theorem claim_C2_exhaustion_returns_no_compatible_adapter_witness :
    get_hardware_adapter [⟨true, true, true⟩, ⟨true, false, false⟩]
        = .error .enumAdaptersNotFound
    ∧ get_hardware_adapter [⟨true, true, true⟩, ⟨true, false, false⟩] ≠ .panicked :=
  claim_C2_exhaustion_returns_no_compatible_adapter
    [⟨true, true, true⟩, ⟨true, false, false⟩] (by decide)

/-- C3: the fence is created with completed value 0 and `bind_to_window`
initialises `fence_value` to 1; across any sequence of `n` bound
`render()` calls the values passed to `queue.Signal` are exactly
`1, 2, …, n`, after the `n`-th frame `fence_value = n + 1`, and after
each frame's wait the fence's completed value is at least the value just
signaled. -/
theorem claim_C3_fence_monotonicity (heapBase : Nat) (envs : List FrameEnv)
    (r : Resources) (hinit : r.fence_value = 1) :
    createFenceInitialValue = 0
    ∧ (∀ env : BindEnv, (bind_to_window env).fence_value = 1)
    ∧ signalValues (renderN heapBase envs (some r)).1 = List.range' 1 envs.length
    ∧ (∃ r2 : Resources, (renderN heapBase envs (some r)).2 = some r2
        ∧ r2.fence_value = envs.length + 1)
    ∧ (∀ completedBefore v : Nat, v ≤ completedAfterWait completedBefore v) := by
  obtain ⟨h1, r2, h2, h3⟩ := renderN_signals heapBase envs r
  refine ⟨rfl, fun _ => rfl, ?_, ⟨r2, h2, by omega⟩, ?_⟩
  · rw [hinit] at h1; exact h1
  · intro cb v
    unfold completedAfterWait
    split <;> omega

/-- Witness for C3: three frames starting from the freshly bound state
signal `1, 2, 3` and leave `fence_value = 4`. -/
theorem claim_C3_fence_monotonicity_witness :
    createFenceInitialValue = 0
    ∧ (∀ env : BindEnv, (bind_to_window env).fence_value = 1)
    ∧ signalValues (renderN 100 [⟨0, 1⟩, ⟨1, 0⟩, ⟨5, 1⟩] (some sampleResources)).1
        = List.range' 1 3
    ∧ (∃ r2 : Resources,
        (renderN 100 [⟨0, 1⟩, ⟨1, 0⟩, ⟨5, 1⟩] (some sampleResources)).2 = some r2
        ∧ r2.fence_value = 3 + 1)
    ∧ (∀ completedBefore v : Nat, v ≤ completedAfterWait completedBefore v) :=
  claim_C3_fence_monotonicity 100 [⟨0, 1⟩, ⟨1, 0⟩, ⟨5, 1⟩] sampleResources rfl

/-- C4: every frame recorded by `populate_command_list` contains exactly
one PRESENT→RENDER_TARGET transition barrier on back buffer
`[frame_index]`, strictly before the clear and the draw targeting that
buffer, and exactly one RENDER_TARGET→PRESENT barrier on the same
buffer strictly after the draw and immediately before `Close`; no other
resource barriers are recorded. -/
theorem claim_C4_backbuffer_barrier_lifecycle (heapBase : Nat) (r : Resources) :
    ∃ pre mid : List Cmd,
      populate_command_list heapBase r
        = pre ++ [Cmd.resourceBarrier (backBuffer r) .present .renderTarget]
            ++ mid ++ [Cmd.resourceBarrier (backBuffer r) .renderTarget .present, Cmd.close]
      ∧ pre.all (fun c => !isBarrierCmd c) = true
      ∧ mid.all (fun c => !isBarrierCmd c) = true
      ∧ Cmd.clearRenderTargetView (populateRtvHandle heapBase r) ∈ mid
      ∧ Cmd.drawInstanced 3 1 0 0 ∈ mid
      ∧ (∀ rtv : Nat, Cmd.clearRenderTargetView rtv ∉ pre)
      ∧ (∀ v i sv si : Nat, Cmd.drawInstanced v i sv si ∉ pre) := by
  refine ⟨[Cmd.setGraphicsRootSignature r.root_signature,
           Cmd.rsSetViewports 1 r.viewport,
           Cmd.rsSetScissorRects 1 r.scissor_rect],
          [Cmd.omSetRenderTargets 1 (populateRtvHandle heapBase r),
           Cmd.clearRenderTargetView (populateRtvHandle heapBase r),
           Cmd.iaSetPrimitiveTopology,
           Cmd.iaSetVertexBuffers 0 1 r.vbv,
           Cmd.drawInstanced 3 1 0 0],
          rfl, rfl, rfl, by simp, by simp, ?_, ?_⟩
  · intro rtv; simp
  · intro v i sv si; simp

/-- C5: a bound `render()` call executes exactly one command list, then
presents with sync interval 1 and flags 0, then signals the captured
fence value `v = fence_value`; the new state has `fence_value = v + 1`
and `frame_index` refreshed from the swap chain; and the CPU blocks on
the OS event with `INFINITE` timeout exactly when the fence's completed
value was below `v`. -/
theorem claim_C5_submission_sequence (heapBase : Nat) (env : FrameEnv) (r : Resources) :
    (render heapBase env (some r)).2.1
      = [Ev.executeCommandLists 1 r.command_list, Ev.present 1 0,
         Ev.signal r.fence r.fence_value]
        ++ (if env.completedBefore < r.fence_value then
              [Ev.setEventOnCompletion r.fence_value r.fence_event,
               Ev.waitForSingleObject r.fence_event INFINITE]
            else [])
    ∧ (Ev.waitForSingleObject r.fence_event INFINITE ∈ (render heapBase env (some r)).2.1
        ↔ env.completedBefore < r.fence_value)
    ∧ (render heapBase env (some r)).2.2
        = some { r with fence_value := r.fence_value + 1,
                        frame_index := env.swapChainIndex } := by
  refine ⟨?_, ?_, rfl⟩
  · simp [render, wait_for_previous_frame]
  · by_cases h : env.completedBefore < r.fence_value <;>
      simp [render, wait_for_previous_frame, h]

/-- C6: for every descriptor index `i < FRAME_COUNT`, the RTV CPU handle
used when creating the render-target view at bind time and when setting
the render target during frame recording equals
`heap_base + i × stride`, where the stride is the value
`bind_to_window` stores from `GetDescriptorHandleIncrementSize` — the
handles are linear in whatever stride the device reports, never a
hardcoded constant. -/
theorem claim_C6_rtv_handle_math (env : BindEnv) (heapBase : Nat) (r : Resources)
    (i : Nat) (hi : i < FRAME_COUNT) (hfi : r.frame_index = i) :
    (bindRtvHandles env)[i]? = some (env.rtvHeapBase + i * env.rtvDescriptorSize)
    ∧ (bind_to_window env).rtv_descriptor_size = env.rtvDescriptorSize
    ∧ populateRtvHandle heapBase r = heapBase + i * r.rtv_descriptor_size
    ∧ Cmd.omSetRenderTargets 1 (heapBase + i * r.rtv_descriptor_size)
        ∈ populate_command_list heapBase r
    ∧ Cmd.clearRenderTargetView (heapBase + i * r.rtv_descriptor_size)
        ∈ populate_command_list heapBase r := by
  have hi2 : i = 0 ∨ i = 1 := by
    have hF : FRAME_COUNT = 2 := rfl
    omega
  refine ⟨?_, rfl, by rw [populateRtvHandle, hfi], ?_, ?_⟩
  · rcases hi2 with h0 | h1
    · subst h0; rfl
    · subst h1; rfl
  · simp [populate_command_list, populateRtvHandle, hfi]
  · simp [populate_command_list, populateRtvHandle, hfi]

/-- Witness for C6: slot 1 of the sample environment, heap base 100,
stride 32: handle 100 + 1 × 32. -/
theorem claim_C6_rtv_handle_math_witness :
    (bindRtvHandles sampleBindEnv)[1]?
        = some (sampleBindEnv.rtvHeapBase + 1 * sampleBindEnv.rtvDescriptorSize)
    ∧ (bind_to_window sampleBindEnv).rtv_descriptor_size = sampleBindEnv.rtvDescriptorSize
    ∧ populateRtvHandle 100 sampleResources1
        = 100 + 1 * sampleResources1.rtv_descriptor_size
    ∧ Cmd.omSetRenderTargets 1 (100 + 1 * sampleResources1.rtv_descriptor_size)
        ∈ populate_command_list 100 sampleResources1
    ∧ Cmd.clearRenderTargetView (100 + 1 * sampleResources1.rtv_descriptor_size)
        ∈ populate_command_list 100 sampleResources1 :=
  claim_C6_rtv_handle_math sampleBindEnv 100 sampleResources1 1 (by decide) rfl

/-- C7: for every aspect ratio `a`, `create_vertex_buffer` forms exactly
the three vertices `(0, 0.25a, 0)`, `(0.25, −0.25a, 0)`,
`(−0.25, −0.25a, 0)` with colors red, green, blue (alpha 1) in that
order, and records a vertex-buffer view with stride 28 and total size
84 bytes. -/
theorem claim_C7_aspect_dependent_geometry (a : ℚ) (gpuVirtualAddress : Nat) :
    triangleVertices a =
      [ { position := (0, 0.25 * a, 0), color := (1, 0, 0, 1) },
        { position := (0.25, -(0.25 * a), 0), color := (0, 1, 0, 1) },
        { position := (-0.25, -(0.25 * a), 0), color := (0, 0, 1, 1) } ]
    ∧ (triangleVertices a).length = 3
    ∧ (create_vertex_buffer_vbv gpuVirtualAddress).strideInBytes = 28
    ∧ (create_vertex_buffer_vbv gpuVirtualAddress).sizeInBytes = 84 := by
  refine ⟨?_, rfl, rfl, rfl⟩
  norm_num [triangleVertices]

/-- C8: the warp flag is recognised exactly when some argument equals
`"-warp"` or `"/warp"` after ASCII lowercasing; when recognised,
`create_device` takes the factory's `EnumWarpAdapter` and the window
title gets `" (WARP)"` appended; otherwise hardware enumeration is used
and the title is unchanged. -/
theorem claim_C8_warp_flag (args : List String) (baseTitle : String) :
    (use_warp_device args = true ↔
      ∃ arg ∈ args, arg.toList.map toAsciiLowercase = "-warp".toList
        ∨ arg.toList.map toAsciiLowercase = "/warp".toList)
    ∧ create_device_adapter (use_warp_device args)
        = (if specWarpFlagRecognized args then .warpAdapter else .hardwareAdapter)
    ∧ window_title baseTitle (use_warp_device args)
        = (if specWarpFlagRecognized args then baseTitle ++ " (WARP)" else baseTitle) := by
  refine ⟨?_, ?_, ?_⟩
  · rw [use_warp_device_eq_spec]
    unfold specWarpFlagRecognized
    simp [List.any_eq_true]
  · rw [use_warp_device_eq_spec]; rfl
  · rw [use_warp_device_eq_spec]; rfl

/-- C9: a bound `render()` call mutates only `frame_index` and
`fence_value`; every other stored field of `Resources` is returned
unchanged. -/
theorem claim_C9_render_mutates_only_counters (heapBase : Nat) (env : FrameEnv)
    (r : Resources) :
    ∃ r2 : Resources, (render heapBase env (some r)).2.2 = some r2
      ∧ r2.command_queue = r.command_queue
      ∧ r2.swap_chain = r.swap_chain
      ∧ r2.render_targets = r.render_targets
      ∧ r2.rtv_heap = r.rtv_heap
      ∧ r2.rtv_descriptor_size = r.rtv_descriptor_size
      ∧ r2.viewport = r.viewport
      ∧ r2.scissor_rect = r.scissor_rect
      ∧ r2.command_allocator = r.command_allocator
      ∧ r2.root_signature = r.root_signature
      ∧ r2.pso = r.pso
      ∧ r2.command_list = r.command_list
      ∧ r2.vertex_buffer = r.vertex_buffer
      ∧ r2.vbv = r.vbv
      ∧ r2.fence = r.fence
      ∧ r2.fence_event = r.fence_event
      ∧ r2.fence_value = r.fence_value + 1
      ∧ r2.frame_index = env.swapChainIndex :=
  ⟨{ r with fence_value := r.fence_value + 1, frame_index := env.swapChainIndex },
    rfl, rfl, rfl, rfl, rfl, rfl, rfl, rfl, rfl, rfl, rfl, rfl, rfl, rfl, rfl, rfl, rfl, rfl⟩

/-- C10: calling `render()` before `bind_to_window` (resources absent)
is a silent no-op: it records nothing, submits no events, and leaves
the absent state absent. -/
theorem claim_C10_render_unbound_is_noop (heapBase : Nat) (env : FrameEnv) :
    render heapBase env none = ([], [], none) :=
  rfl
